import Mathlib

/-!
Verification of the GeigerLog serial command/response protocol engine
(gcommands.py) against its design specification.

The embedding models the transport as a `SerialPort`: for each write/read
call (indexed by attempt number) it records whether the write raises an
I/O exception, and what the read delivers (`none` models a raised read
exception; `some bs` models a read that delivers the byte list `bs`, of
which `read(n)` hands over at most the first `n` bytes, as pyserial does).
`serialCOMM` is the retrying request/response driver; payload decoders are
pure functions on byte lists, translated from the source.
-/

namespace GeigerLog

/-- Model of the observable behaviour of the serial connection: call `k` of
`ser.write` raises iff `writeRaises k`; call `k` of `ser.read` raises iff
`readResult k = none`, and otherwise delivers the bytes `bs` where
`readResult k = some bs` (the read of `n` bytes takes at most `n` of them). -/
structure SerialPort where
  writeRaises : Nat → Bool
  readResult : Nat → Option (List Nat)

/-- Outcome of one `serialCOMM` exchange: either the Python function returns
a triple (payload, error code, error message) — with `closed` recording
whether `ser.close()` was invoked on the way — or an exception escapes the
function uncaught (`raised`). -/
inductive CommResult where
  | ret (recv : Option (List Nat)) (error : Int) (errmessage : String) (closed : Bool)
  | raised
deriving DecidableEq, Repr

/-- Error message built at the first short read
(source: the format string with the received and requested counts). -/
def msgRecordTooShort (received requested : Nat) : String :=
  "serialCOMM: ERROR: Record too short: Received bytes:" ++ toString received
    ++ " < requested:" ++ toString requested

/-- Message appended when a retry recovers the full record
(source: the format string with the retry count). -/
def msgOkAfter (base : String) (count : Nat) : String :=
  base ++ "; ok after " ++ toString count ++ " retry"

def msgWriteFailed : String :=
  "serialCOMM: ERROR: WRITE failed in function serialCOMM. See log for details"

def msgReadFailed : String :=
  "serialCOMM: ERROR: READ failed in function serialCOMM. See log for details"

def msgGivingUp : String :=
  "serialCOMM: ERROR communicating  - giving up - is the baudrate set correctly?"

/-- The retry loop of `serialCOMM` (gcommands.py lines 847-875), entered after
the first short read with `count = 1` and `countmax = 5`.  Each iteration
re-writes the frame and re-reads; these calls are *not* wrapped in
`try/except` in the source, so an exception there escapes (`raised`).
A full-length read breaks out with error 1 and the retry count recorded;
after the read of trial 4 fails, `count` reaches `countmax = 5` and the
function gives up with error -1 and payload `None`. -/
def retryFrom (port : SerialPort) (returnlength : Nat) (msg : String)
    (count : Nat) : CommResult :=
  if port.writeRaises count then .raised
  else
    match port.readResult count with
    | none => .raised
    | some bs =>
      let recv := bs.take returnlength
      if recv.length = returnlength then
        .ret (some recv) 1 (msgOkAfter msg count) false
      else if 5 ≤ count + 1 then
        .ret none (-1) msgGivingUp false
      else retryFrom port returnlength msg (count + 1)
termination_by 5 - count
decreasing_by omega

/-- Model of `serialCOMM(ser, sendtxt, returnlength, ...)` (gcommands.py lines
788-879): write the frame, read `returnlength` bytes, and on a short read
enter the bounded retry loop.  The initial write and read are guarded by
`try/except` handlers that close the port and return error -1. -/
def serialCOMM (ser : Option SerialPort) (returnlength : Nat) : CommResult :=
  match ser with
  | none => .ret (some []) (-1) "Serial Port is closed" false
  | some port =>
    if port.writeRaises 0 then .ret none (-1) msgWriteFailed true
    else
      match port.readResult 0 with
      | none => .ret none (-1) msgReadFailed true
      | some bs =>
        let recv := bs.take returnlength
        if recv.length < returnlength then
          retryFrom port returnlength (msgRecordTooShort recv.length returnlength) 1
        else .ret (some recv) 0 "" false

/-- Model of `turnHeartbeatOn` (lines 89-104): guard for a missing connection, then a
zero-length exchange. -/
def turnHeartbeatOn (ser : Option SerialPort) : CommResult :=
  match ser with
  | none => .ret (some []) 1 "No serial connection, returning" false
  | some _ => serialCOMM ser 0

/-- Model of `turnHeartbeatOFF` (lines 107-118). -/
def turnHeartbeatOFF (ser : Option SerialPort) : CommResult :=
  match ser with
  | none => .ret (some []) 1 "No serial connection, returning" false
  | some _ => serialCOMM ser 0

/-- Model of `setPOWEROFF` (lines 534-543): zero-length exchange. -/
def setPOWEROFF (ser : Option SerialPort) : CommResult := serialCOMM ser 0

/-- Model of `setPOWERON` (lines 546-555): zero-length exchange. -/
def setPOWERON (ser : Option SerialPort) : CommResult := serialCOMM ser 0

/-- Model of `setREBOOT` (lines 558-567): zero-length exchange. -/
def setREBOOT (ser : Option SerialPort) : CommResult := serialCOMM ser 0

/-- CPS decode of `getCPMS` with `CPMflag=False` (line 83):
`rec = ((rec[0] & 0x3f) << 8 | rec[1]) * 60`. -/
def getCPMS_decodeCPS (recv : List Nat) : Nat :=
  ((recv.getD 0 0 &&& 0x3f) <<< 8 ||| recv.getD 1 0) * 60

/-- CPS decode following the words of the spec: mask the top 2 bits of the first
byte, combine big-endian, multiply by 60. -/
def specCPSdecode (b0 b1 : Nat) : Nat := ((b0 % 64) * 256 + b1) * 60

/-- Serial-number decode of `getSERIAL` (lines 417-424): each of the 7 bytes
yields two uppercase hex digits, high nibble first. -/
def getSERIAL_decode (recv : List Nat) : String :=
  let hexlookup := "0123456789ABCDEF".toList
  String.mk (((List.range 7).map (fun i =>
    [hexlookup.getD ((recv.getD i 0 &&& 0xF0) >>> 4) '?',
     hexlookup.getD (recv.getD i 0 &&& 0x0F) '?'])).flatten)

/-! ### Configuration write (gcommands.py `writeConfigData`, lines 356-391) -/

/-- One outgoing frame of the configuration-write sequence. -/
inductive Frame where
  | ecfg
  | wcfg (addr : Nat) (val : Nat)
  | cfgupdate
deriving DecidableEq, Repr

/-- Modelled from the spec: `gutils.remove_trailing` (imported by
gcommands.py but not part of the given sources) — trim trailing sentinel
bytes equal to `v` from the tail of the list. -/
def remove_trailing (l : List Nat) (v : Nat) : List Nat :=
  (l.reverse.dropWhile (fun c => c == v)).reverse

/-- Model of `writeConfigData(ser, cfg, cfgaddress, value)` as the sequence of frames
it sends: `<ECFG>>`, then — after mutating the byte at `cfgaddress` and
trimming trailing 255 bytes — one `<WCFG[A0][D0]>>` per remaining byte
(address, value), then `<CFGUPDATE>>` via `updateConfig`. -/
def writeConfigData (cfg : List Nat) (cfgaddress : Nat) (value : Nat) :
    List Frame :=
  [Frame.ecfg]
    ++ ((remove_trailing (cfg.set cfgaddress value) 255).enum.map
          (fun p => Frame.wcfg p.1 p.2))
    ++ [Frame.cfgupdate]

/-! ### Memory read frame (gcommands.py `getSPIR`, lines 140-194) -/

/-- Encoding `struct.pack(">I", n)`: 4 bytes, big-endian. -/
def pack32be (n : Nat) : List Nat :=
  [n / 2 ^ 24 % 256, n / 2 ^ 16 % 256, n / 2 ^ 8 % 256, n % 256]

/-- Encoding `struct.pack(">H", n)`: 2 bytes, big-endian. -/
def pack16be (n : Nat) : List Nat := [n / 2 ^ 8 % 256, n % 256]

/-- The `<SPIR...>>` frame built by `getSPIR`: ASCII `<SPIR`, the address
packed big-endian into 4 bytes with the high byte clipped off, then the
length field — the raw `datalength` when `gglobs.devicesIndex == 3`
(the "GMC-300 v3.20" workaround exception), `datalength - 1` otherwise —
and the closing `>>`. -/
def getSPIR_frame (devicesIndex : Nat) (address datalength : Nat) :
    List Nat :=
  [60, 83, 80, 73, 82]
    ++ (pack32be address).drop 1
    ++ (if devicesIndex = 3 then pack16be datalength
        else pack16be (datalength - 1))
    ++ [62, 62]

/-! ### Calibration extraction (gcommands.py `ftextCalibration`, 1244-1276) -/

/-- Endianness of a `struct.unpack` float format string. -/
inductive Endian where
  | big
  | little
deriving DecidableEq, Repr

/-- Exact value denoted by 4 bytes read as an IEEE-754 binary32 float in
big-endian byte order; `none` for the non-numeric encodings
(exponent field 255: infinities and NaNs). -/
def float32valBE (bs : List Nat) : Option ℚ :=
  let b0 := bs.getD 0 0
  let b1 := bs.getD 1 0
  let expo := b0 % 128 * 2 + b1 / 128
  let mant := b1 % 128 * 65536 + bs.getD 2 0 * 256 + bs.getD 3 0
  let sign : ℚ := if 128 ≤ b0 then -1 else 1
  if expo = 255 then none
  else if expo = 0 then some (sign * ((mant : ℚ) / 2 ^ 23) * (2 ^ 126)⁻¹)
  else some (sign * (1 + (mant : ℚ) / 2 ^ 23) * 2 ^ (expo : ℤ) / 2 ^ 127)

/-- Semantics of `struct.unpack` for a float: big-endian reads the bytes as given,
little-endian reads them reversed. -/
def structUnpackF (fmt : Endian) (bs : List Nat) : Option ℚ :=
  match fmt with
  | .big => float32valBE bs
  | .little => float32valBE bs.reverse

/-- Semantics of `struct.unpack(">H", ...)` on two bytes. -/
def unpackHbe (b0 b1 : Nat) : Nat := b0 * 256 + b1

/-- The `fString` chosen by `ftextCalibration`: big-endian exactly for
`gglobs.devicesIndex == 2` (the GMC-500 entry), little-endian otherwise. -/
def calEndianFString (devicesIndex : Nat) : Endian :=
  if devicesIndex = 2 then .big else .little

/-- The `cal_CPM` list of `ftextCalibration`: big-endian uint16 values from
configuration offsets 8-9, 14-15 and 20-21. -/
def cal_CPM (cfg : List Nat) : List Nat :=
  [unpackHbe (cfg.getD 8 0) (cfg.getD 9 0),
   unpackHbe (cfg.getD 14 0) (cfg.getD 15 0),
   unpackHbe (cfg.getD 20 0) (cfg.getD 21 0)]

/-- The `cal_uSv` list of `ftextCalibration`: 4-byte floats from
configuration offsets 10-13, 16-19 and 22-25, unpacked with the
per-model format string. -/
def cal_uSv (devicesIndex : Nat) (cfg : List Nat) : List (Option ℚ) :=
  [structUnpackF (calEndianFString devicesIndex)
     [cfg.getD 10 0, cfg.getD 11 0, cfg.getD 12 0, cfg.getD 13 0],
   structUnpackF (calEndianFString devicesIndex)
     [cfg.getD 16 0, cfg.getD 17 0, cfg.getD 18 0, cfg.getD 19 0],
   structUnpackF (calEndianFString devicesIndex)
     [cfg.getD 22 0, cfg.getD 23 0, cfg.getD 24 0, cfg.getD 25 0]]

/-! ### Date-time decode (gcommands.py `getDATETIME`, lines 454-479) -/

def isLeapYear (y : Nat) : Bool :=
  (y % 4 == 0 && y % 100 != 0) || y % 400 == 0

def daysInMonth (y m : Nat) : Nat :=
  if m = 2 then (if isLeapYear y then 29 else 28)
  else if m = 4 ∨ m = 6 ∨ m = 9 ∨ m = 11 then 30
  else 31

/-- Validity domain of the Python `datetime.datetime(y, mo, d, h, mi, s)`
constructor: outside it the constructor raises `ValueError`. -/
def validDateTime (y mo d h mi s : Nat) : Bool :=
  decide (1 ≤ y) && decide (y ≤ 9999) && decide (1 ≤ mo) && decide (mo ≤ 12)
    && decide (1 ≤ d) && decide (d ≤ daysInMonth y mo)
    && decide (h ≤ 23) && decide (mi ≤ 59) && decide (s ≤ 59)

/-- Result of the post-read processing of `getDATETIME`. -/
inductive DTResult where
  | timestamp (y mo d h mi s : Nat)
  | failure (fakeDate : String) (error : Int) (errmessage : String)
deriving DecidableEq, Repr

/-- The decode step of `getDATETIME` applied to a reply received with error
code 0 or 1: build `datetime(rec[0] + 2000, rec[1], ..., rec[5])`; the
`except` handler converts a constructor failure into the flagged sentinel
`"2099-09-09 09:09:09"` with error -1 and an error message. -/
def getDATETIME_decode (recv : List Nat) : DTResult :=
  if validDateTime (recv.getD 0 0 + 2000) (recv.getD 1 0) (recv.getD 2 0)
      (recv.getD 3 0) (recv.getD 4 0) (recv.getD 5 0) then
    .timestamp (recv.getD 0 0 + 2000) (recv.getD 1 0) (recv.getD 2 0)
      (recv.getD 3 0) (recv.getD 4 0) (recv.getD 5 0)
  else
    .failure "2099-09-09 09:09:09" (-1) "ERROR getting Date & Time from device"

/-! ### Save-data mode (gcommands.py `getSaveDataType`, lines 640-662) -/

/-- Modelled from the spec: `gglobs.savedatatypes`, the four-entry table
(off / per-second / per-minute / per-hour), with the labels of the
docstring of the source. -/
def savedatatypes : List String :=
  ["off (history is off)", "CPS every second", "CPM every minute",
   "CPM recorded once per hour"]

/-- The body of `getSaveDataType` after reading `sdt = cfg[32]`: the guard
is `sdt <= len(sdttxt)`, so the off-by-one index 4 reaches `sdttxt[sdt]`,
raises `IndexError` and is caught by the blanket `except` (yielding the
"Error in getSaveDataType" text); indices above 4 take the explicit
"Unknown SaveDataType" branch. -/
def getSaveDataType_fromByte (sdt : Nat) : Nat × String :=
  if sdt ≤ savedatatypes.length then
    match savedatatypes.get? sdt with
    | some txt => (sdt, txt)
    | none => (sdt, "Error in getSaveDataType, undefined type: " ++ toString sdt)
  else
    (sdt, "Unknown SaveDataType: " ++ toString sdt)

/-- Function `getSaveDataType(cfg)` reads the save-data-type byte at offset 32
(`gglobs.cfgOffsetSDT`, per the offset table in the source) and classifies it. -/
def getSaveDataType (cfg : List Nat) : Nat × String :=
  getSaveDataType_fromByte (cfg.getD 32 0)

/-! ### Behaviour lemmas for the retry loop -/

lemma retryFrom_write_raised (port : SerialPort) (n : Nat) (msg : String)
    (count : Nat) (hw : port.writeRaises count = true) :
    retryFrom port n msg count = .raised := by
  rw [retryFrom, hw]
  simp

lemma retryFrom_read_raised (port : SerialPort) (n : Nat) (msg : String)
    (count : Nat) (hw : port.writeRaises count = false)
    (hr : port.readResult count = none) :
    retryFrom port n msg count = .raised := by
  rw [retryFrom, hw, hr]
  simp

lemma retryFrom_success (port : SerialPort) (n : Nat) (msg : String)
    (count : Nat) (bs : List Nat) (hw : port.writeRaises count = false)
    (hr : port.readResult count = some bs) (hfull : n ≤ bs.length) :
    retryFrom port n msg count
      = .ret (some (bs.take n)) 1 (msgOkAfter msg count) false := by
  rw [retryFrom, hw, hr]
  simp [List.length_take, Nat.min_eq_left hfull]

lemma retryFrom_step (port : SerialPort) (n : Nat) (msg : String)
    (count : Nat) (bs : List Nat) (h5 : count + 1 < 5)
    (hw : port.writeRaises count = false)
    (hr : port.readResult count = some bs) (hshort : bs.length < n) :
    retryFrom port n msg count = retryFrom port n msg (count + 1) := by
  rw [retryFrom, hw, hr]
  have h1 : (bs.take n).length ≠ n := by
    rw [List.length_take]
    omega
  simp only [Bool.false_eq_true, if_false, h1, if_neg h1]
  have h2 : ¬ 5 ≤ count + 1 := by omega
  rw [if_neg h2]

lemma retryFrom_giveup (port : SerialPort) (n : Nat) (msg : String)
    (count : Nat) (bs : List Nat) (h5 : 5 ≤ count + 1)
    (hw : port.writeRaises count = false)
    (hr : port.readResult count = some bs) (hshort : bs.length < n) :
    retryFrom port n msg count = .ret none (-1) msgGivingUp false := by
  rw [retryFrom, hw, hr]
  have h1 : (bs.take n).length ≠ n := by
    rw [List.length_take]
    omega
  simp only [Bool.false_eq_true, if_false, h1, if_neg h1]
  rw [if_pos h5]

/-- Any payload handed back by the retry loop with a `.ret` outcome has the
full requested length, error code 1, and leaves the port open. -/
lemma retryFrom_ret_inv (port : SerialPort) (n : Nat) (msg : String) :
    ∀ k count recv e m c, 5 - count ≤ k →
      retryFrom port n msg count = .ret (some recv) e m c →
      recv.length = n ∧ e = 1 ∧ c = false := by
  intro k
  induction k with
  | zero =>
    intro count recv e m c hk h
    rw [retryFrom] at h
    split at h
    · exact absurd h (by simp)
    · split at h
      · exact absurd h (by simp)
      · simp only [] at h
        split at h
        · rename_i hlen
          rw [CommResult.ret.injEq] at h
          obtain ⟨h1, h2, h3, h4⟩ := h
          exact ⟨by rw [← Option.some.injEq] at h1; cases h1; exact hlen,
            by omega, h4.symm⟩
        · split at h
          · simp at h
          · omega
  | succ k ih =>
    intro count recv e m c hk h
    rw [retryFrom] at h
    split at h
    · exact absurd h (by simp)
    · split at h
      · exact absurd h (by simp)
      · simp only [] at h
        split at h
        · rename_i hlen
          rw [CommResult.ret.injEq] at h
          obtain ⟨h1, h2, h3, h4⟩ := h
          exact ⟨by rw [← Option.some.injEq] at h1; cases h1; exact hlen,
            by omega, h4.symm⟩
        · split at h
          · simp at h
          · rename_i hcnt
            exact ih (count + 1) recv e m c (by omega) h

/-- The retry loop consults only attempts `1..4`; two ports that agree on
them behave the same. -/
lemma retryFrom_congr (p q : SerialPort) (n : Nat) (msg : String) :
    ∀ k count, count ≤ 4 → 5 - count ≤ k →
      (∀ j, j < 5 →
        p.writeRaises j = q.writeRaises j ∧ p.readResult j = q.readResult j) →
      retryFrom p n msg count = retryFrom q n msg count := by
  intro k
  induction k with
  | zero => intro count h4 hk _; omega
  | succ k ih =>
    intro count h4 hk hag
    rw [retryFrom]
    conv_rhs => rw [retryFrom]
    rw [← (hag count (by omega)).1, ← (hag count (by omega)).2]
    split
    · rfl
    · split
      · rfl
      · simp only []
        split
        · rfl
        · split
          · rfl
          · rename_i hcnt
            exact ih (count + 1) (by omega) (by omega) hag

/-! ### Behaviour lemmas for serialCOMM -/

lemma serialCOMM_write_raised (port : SerialPort) (n : Nat)
    (hw : port.writeRaises 0 = true) :
    serialCOMM (some port) n = .ret none (-1) msgWriteFailed true := by
  rw [serialCOMM, hw]
  simp

lemma serialCOMM_read_raised (port : SerialPort) (n : Nat)
    (hw : port.writeRaises 0 = false) (hr : port.readResult 0 = none) :
    serialCOMM (some port) n = .ret none (-1) msgReadFailed true := by
  rw [serialCOMM, hw, hr]
  simp

lemma serialCOMM_firstTry_ok (port : SerialPort) (n : Nat) (bs : List Nat)
    (hw : port.writeRaises 0 = false) (hr : port.readResult 0 = some bs)
    (hfull : n ≤ bs.length) :
    serialCOMM (some port) n = .ret (some (bs.take n)) 0 "" false := by
  rw [serialCOMM, hw, hr]
  have h1 : ¬ (bs.take n).length < n := by
    rw [List.length_take]
    omega
  simp only [Bool.false_eq_true, if_false, if_neg h1]

lemma serialCOMM_enter_retry (port : SerialPort) (n : Nat) (bs : List Nat)
    (hw : port.writeRaises 0 = false) (hr : port.readResult 0 = some bs)
    (hshort : bs.length < n) :
    serialCOMM (some port) n
      = retryFrom port n (msgRecordTooShort bs.length n) 1 := by
  rw [serialCOMM, hw, hr]
  have h1 : (bs.take n).length < n := by
    rw [List.length_take]
    omega
  have h2 : (bs.take n).length = bs.length := by
    rw [List.length_take]
    omega
  simp only [Bool.false_eq_true, if_false, if_pos h1, h2]
  rw [if_pos hshort]

/-! ### Concrete transports used by the witnesses -/

/-- Transport that delivers 1 byte on attempts 0 and 1 and 2 bytes from
attempt 2 on; nothing ever raises. -/
def portRecover : SerialPort :=
  ⟨fun _ => false, fun k => if k ≤ 1 then some [7] else some [7, 8]⟩

/-- Transport that always delivers nothing and never raises. -/
def portShort : SerialPort := ⟨fun _ => false, fun _ => some []⟩

/-- Transport whose very first write raises. -/
def portW0 : SerialPort := ⟨fun _ => true, fun _ => some []⟩

/-- Transport whose first write succeeds but whose reads raise. -/
def portR0 : SerialPort := ⟨fun _ => false, fun _ => none⟩

/-- Transport that delivers nothing on attempt 0 and whose re-write inside
the retry loop (attempt 1) raises. -/
def portRetryRaise : SerialPort := ⟨fun k => decide (k = 1), fun _ => some []⟩

/-- Transport that delivers nothing on attempt 0 and whose re-read inside
the retry loop (attempt 1) raises. -/
def portRetryReadRaise : SerialPort :=
  ⟨fun _ => false, fun k => if k = 0 then some [] else none⟩

/-- Transport that delivers 3 bytes at once and never raises. -/
def portFine : SerialPort := ⟨fun _ => false, fun _ => some [1, 2, 3]⟩

/-! ### Claims C1, C2, C3, C10 -/

/-- Claim C1: the engine retries short reads with at most 5 total attempts,
the first short read counting as attempt 1.  (i) If the transport returns
fewer bytes on attempts 0 and 1 (the first two attempts) and the full
length on attempt 2 (the third), the operation returns error code 1
(Warning-recovered) with a message recording retry-count 2 and the port
open.  (ii) If the transport returns short records on all 5 attempts, the
operation returns error code -1 (Fatal) with payload `None`, never partial
data.  (iii) The exchange never consults the transport beyond the first
5 attempts: ports that agree on attempts 0..4 give identical outcomes. -/
theorem serialCOMM_short_read_retry_budget (port : SerialPort) (n : Nat) :
    (∀ bs0 bs1 bs2 : List Nat,
      port.writeRaises 0 = false → port.writeRaises 1 = false →
      port.writeRaises 2 = false →
      port.readResult 0 = some bs0 → port.readResult 1 = some bs1 →
      port.readResult 2 = some bs2 →
      bs0.length < n → bs1.length < n → n ≤ bs2.length →
      serialCOMM (some port) n =
        .ret (some (bs2.take n)) 1
          (msgOkAfter (msgRecordTooShort bs0.length n) 2) false)
    ∧
    ((∀ j, j < 5 → port.writeRaises j = false) →
     (∀ j, j < 5 → ∃ bs, port.readResult j = some bs ∧ bs.length < n) →
      serialCOMM (some port) n = .ret none (-1) msgGivingUp false)
    ∧
    (∀ q : SerialPort,
      (∀ j, j < 5 →
        port.writeRaises j = q.writeRaises j ∧
        port.readResult j = q.readResult j) →
      serialCOMM (some port) n = serialCOMM (some q) n) := by
  refine ⟨?_, ?_, ?_⟩
  · intro bs0 bs1 bs2 hw0 hw1 hw2 hr0 hr1 hr2 hs0 hs1 hf2
    rw [serialCOMM_enter_retry port n bs0 hw0 hr0 hs0]
    rw [retryFrom_step port n _ 1 bs1 (by omega) hw1 hr1 hs1]
    exact retryFrom_success port n _ 2 bs2 hw2 hr2 hf2
  · intro hw hr
    obtain ⟨bs0, hr0, hs0⟩ := hr 0 (by omega)
    rw [serialCOMM_enter_retry port n bs0 (hw 0 (by omega)) hr0 hs0]
    obtain ⟨bs1, hr1, hs1⟩ := hr 1 (by omega)
    rw [retryFrom_step port n _ 1 bs1 (by omega) (hw 1 (by omega)) hr1 hs1]
    obtain ⟨bs2, hr2, hs2⟩ := hr 2 (by omega)
    rw [retryFrom_step port n _ 2 bs2 (by omega) (hw 2 (by omega)) hr2 hs2]
    obtain ⟨bs3, hr3, hs3⟩ := hr 3 (by omega)
    rw [retryFrom_step port n _ 3 bs3 (by omega) (hw 3 (by omega)) hr3 hs3]
    obtain ⟨bs4, hr4, hs4⟩ := hr 4 (by omega)
    exact retryFrom_giveup port n _ 4 bs4 (by omega) (hw 4 (by omega)) hr4 hs4
  · intro q hag
    rw [serialCOMM]
    conv_rhs => rw [serialCOMM]
    rw [← (hag 0 (by omega)).1, ← (hag 0 (by omega)).2]
    split
    · rfl
    · split
      · rfl
      · simp only []
        split
        · exact retryFrom_congr port q n _ 5 1 (by omega) (by omega) hag
        · rfl

/-- Witness for C1: the three parts applied to concrete transports —
recovery on the third attempt with retry-count 2 recorded, exhaustion of
all five attempts, and locality to the first five attempts. -/
theorem serialCOMM_short_read_retry_budget_witness :
    serialCOMM (some portRecover) 2 =
      .ret (some (List.take 2 [7, 8])) 1
        (msgOkAfter (msgRecordTooShort 1 2) 2) false
    ∧ serialCOMM (some portShort) 1 = .ret none (-1) msgGivingUp false
    ∧ serialCOMM (some portRecover) 2 = serialCOMM (some portRecover) 2 := by
  refine ⟨?_, ?_, ?_⟩
  · exact (serialCOMM_short_read_retry_budget portRecover 2).1 [7] [7] [7, 8]
      rfl rfl rfl rfl rfl rfl (by decide) (by decide) (by decide)
  · exact (serialCOMM_short_read_retry_budget portShort 1).2.1
      (fun j hj => rfl) (fun j hj => ⟨[], rfl, by decide⟩)
  · exact (serialCOMM_short_read_retry_budget portRecover 2).2.2 portRecover
      (fun j hj => ⟨rfl, rfl⟩)

/-- Claim C2 counterexample: the claim states that an I/O exception raised
by the re-writes inside the short-read retry loop also yields a Fatal
outcome (-1) with the connection closed.  On the transport whose attempt-0
read is short and whose attempt-1 re-write raises, `serialCOMM` does not
return at all: the exception escapes uncaught (the write and
read of the retry loop are outside any `try/except`), so no Fatal outcome is produced and
`ser.close()` is never reached. -/
theorem serialCOMM_retry_exception_escapes :
    serialCOMM (some portRetryRaise) 1 = CommResult.raised
    ∧ CommResult.raised ≠ CommResult.ret none (-1) msgWriteFailed true := by
  constructor
  · rw [serialCOMM_enter_retry portRetryRaise 1 [] rfl rfl (by decide)]
    exact retryFrom_write_raised portRetryRaise 1 _ 1 (by decide)
  · simp

/-- Claim C2 (amended): an I/O exception on the *initial* write or the
*initial* read yields a terminal Fatal outcome (error code -1 with a
diagnostic message) and closes the connection; exhausting the short-read
retry budget yields Fatal with the connection left open; but an I/O
exception raised by the re-writes or re-reads inside the retry loop
propagates out of the engine uncaught instead of producing a Fatal
outcome, and does not close the connection. -/
theorem serialCOMM_io_exception_behavior (port : SerialPort) (n : Nat) :
    (port.writeRaises 0 = true →
      serialCOMM (some port) n = .ret none (-1) msgWriteFailed true)
    ∧
    (port.writeRaises 0 = false → port.readResult 0 = none →
      serialCOMM (some port) n = .ret none (-1) msgReadFailed true)
    ∧
    ((∀ j, j < 5 → port.writeRaises j = false) →
     (∀ j, j < 5 → ∃ bs, port.readResult j = some bs ∧ bs.length < n) →
      serialCOMM (some port) n = .ret none (-1) msgGivingUp false)
    ∧
    (∀ bs0, port.writeRaises 0 = false → port.readResult 0 = some bs0 →
      bs0.length < n → port.writeRaises 1 = true →
      serialCOMM (some port) n = .raised)
    ∧
    (∀ bs0, port.writeRaises 0 = false → port.readResult 0 = some bs0 →
      bs0.length < n → port.writeRaises 1 = false →
      port.readResult 1 = none →
      serialCOMM (some port) n = .raised) := by
  refine ⟨?_, ?_, ?_, ?_, ?_⟩
  · exact fun hw => serialCOMM_write_raised port n hw
  · exact fun hw hr => serialCOMM_read_raised port n hw hr
  · intro hw hr
    obtain ⟨bs0, hr0, hs0⟩ := hr 0 (by omega)
    rw [serialCOMM_enter_retry port n bs0 (hw 0 (by omega)) hr0 hs0]
    obtain ⟨bs1, hr1, hs1⟩ := hr 1 (by omega)
    rw [retryFrom_step port n _ 1 bs1 (by omega) (hw 1 (by omega)) hr1 hs1]
    obtain ⟨bs2, hr2, hs2⟩ := hr 2 (by omega)
    rw [retryFrom_step port n _ 2 bs2 (by omega) (hw 2 (by omega)) hr2 hs2]
    obtain ⟨bs3, hr3, hs3⟩ := hr 3 (by omega)
    rw [retryFrom_step port n _ 3 bs3 (by omega) (hw 3 (by omega)) hr3 hs3]
    obtain ⟨bs4, hr4, hs4⟩ := hr 4 (by omega)
    exact retryFrom_giveup port n _ 4 bs4 (by omega) (hw 4 (by omega)) hr4 hs4
  · intro bs0 hw0 hr0 hs0 hw1
    rw [serialCOMM_enter_retry port n bs0 hw0 hr0 hs0]
    exact retryFrom_write_raised port n _ 1 hw1
  · intro bs0 hw0 hr0 hs0 hw1 hr1
    rw [serialCOMM_enter_retry port n bs0 hw0 hr0 hs0]
    exact retryFrom_read_raised port n _ 1 hw1 hr1

/-- Witness for the amended C2: all five parts applied to concrete
transports. -/
theorem serialCOMM_io_exception_behavior_witness :
    serialCOMM (some portW0) 3 = .ret none (-1) msgWriteFailed true
    ∧ serialCOMM (some portR0) 3 = .ret none (-1) msgReadFailed true
    ∧ serialCOMM (some portShort) 3 = .ret none (-1) msgGivingUp false
    ∧ serialCOMM (some portRetryRaise) 2 = .raised
    ∧ serialCOMM (some portRetryReadRaise) 2 = .raised := by
  refine ⟨?_, ?_, ?_, ?_, ?_⟩
  · exact (serialCOMM_io_exception_behavior portW0 3).1 rfl
  · exact (serialCOMM_io_exception_behavior portR0 3).2.1 rfl rfl
  · exact (serialCOMM_io_exception_behavior portShort 3).2.2.1
      (fun j hj => rfl) (fun j hj => ⟨[], rfl, by decide⟩)
  · exact (serialCOMM_io_exception_behavior portRetryRaise 2).2.2.2.1 []
      rfl rfl (by decide) (by decide)
  · exact (serialCOMM_io_exception_behavior portRetryReadRaise 2).2.2.2.2 []
      rfl rfl (by decide) rfl rfl

/-- Claim C3: every command with expected reply length 0 (heartbeat on/off,
power on/off, reboot) returns outcome Ok (error code 0) with an empty
payload, whatever bytes the transport would deliver, and the short-read
retry logic is never entered (the result is already the terminal Ok
outcome of the no-retry path). -/
theorem zero_length_commands_ok (port : SerialPort) (bs : List Nat)
    (hw : port.writeRaises 0 = false) (hr : port.readResult 0 = some bs) :
    turnHeartbeatOn (some port) = .ret (some []) 0 "" false
    ∧ turnHeartbeatOFF (some port) = .ret (some []) 0 "" false
    ∧ setPOWEROFF (some port) = .ret (some []) 0 "" false
    ∧ setPOWERON (some port) = .ret (some []) 0 "" false
    ∧ setREBOOT (some port) = .ret (some []) 0 "" false := by
  have h : serialCOMM (some port) 0 = .ret (some []) 0 "" false := by
    have := serialCOMM_firstTry_ok port 0 bs hw hr (Nat.zero_le _)
    simpa using this
  exact ⟨h, h, h, h, h⟩

/-- Witness for C3: a transport that delivers 3 bytes; all five zero-length
commands still return Ok with the empty payload. -/
theorem zero_length_commands_ok_witness :
    turnHeartbeatOn (some portFine) = .ret (some []) 0 "" false
    ∧ turnHeartbeatOFF (some portFine) = .ret (some []) 0 "" false
    ∧ setPOWEROFF (some portFine) = .ret (some []) 0 "" false
    ∧ setPOWERON (some portFine) = .ret (some []) 0 "" false
    ∧ setREBOOT (some portFine) = .ret (some []) 0 "" false :=
  zero_length_commands_ok portFine [1, 2, 3] rfl rfl

/-- Claim C10: whenever `serialCOMM` returns error code 0 or 1, the payload
it hands back contains exactly the requested number of bytes, so a decoder
that runs only under error codes 0 or 1 and indexes positions below the
requested length always indexes within the bounds of the received byte
sequence. -/
theorem serialCOMM_ok_payload_length (ser : Option SerialPort) (n : Nat) :
    (∀ recv e m c, serialCOMM ser n = .ret (some recv) e m c →
      (e = 0 ∨ e = 1) → recv.length = n)
    ∧
    (∀ recv e m c i, serialCOMM ser n = .ret (some recv) e m c →
      (e = 0 ∨ e = 1) → i < n → recv.get? i ≠ none) := by
  have main : ∀ recv e m c, serialCOMM ser n = .ret (some recv) e m c →
      (e = 0 ∨ e = 1) → recv.length = n := by
    intro recv e m c h he
    match ser with
    | none =>
      rw [serialCOMM] at h
      rw [CommResult.ret.injEq] at h
      omega
    | some port =>
      rw [serialCOMM] at h
      split at h
      · exact absurd h (by simp)
      · split at h
        · exact absurd h (by simp)
        · simp only [] at h
          split at h
          · exact (retryFrom_ret_inv port n _ 5 1 recv e m c (by omega) h).1
          · rename_i bs hlen
            rw [CommResult.ret.injEq] at h
            obtain ⟨h1, _, _, _⟩ := h
            rw [← Option.some.injEq] at h1
            cases h1
            rw [List.length_take] at hlen ⊢
            omega
  refine ⟨main, ?_⟩
  intro recv e m c i h he hi
  have := main recv e m c h he
  rw [Ne, List.get?_eq_none]
  omega

/-- Witness for C10: a 2-byte request against a transport delivering 3
bytes; the returned payload has exactly 2 bytes and index 1 is in
bounds. -/
theorem serialCOMM_ok_payload_length_witness :
    (List.take 2 [1, 2, 3]).length = 2
    ∧ (List.take 2 [1, 2, 3]).get? 1 ≠ none := by
  have h : serialCOMM (some portFine) 2
      = .ret (some (List.take 2 [1, 2, 3])) 0 "" false :=
    serialCOMM_firstTry_ok portFine 2 [1, 2, 3] rfl rfl (by decide)
  constructor
  · exact (serialCOMM_ok_payload_length (some portFine) 2).1
      (List.take 2 [1, 2, 3]) 0 "" false h (Or.inl rfl)
  · exact (serialCOMM_ok_payload_length (some portFine) 2).2
      (List.take 2 [1, 2, 3]) 0 "" false 1 h (Or.inl rfl) (by decide)

/-! ### Claim C4: CPS decode -/

/-- Claim C4: for every 2-byte CPS reply `[b0, b1]`, the decoded
CPM-equivalent equals `((b0 & 0x3f) << 8 | b1) * 60` — mask the top 2 bits
of the first byte, combine big-endian, multiply by 60; in particular
`[0xFF, 0xFF]` decodes to 982980 and `[0x80, 0x1C]` decodes to 1680. -/
theorem getCPMS_cps_decode_masks (b0 b1 : Nat) (hb1 : b1 < 256) :
    getCPMS_decodeCPS [b0, b1] = ((b0 &&& 0x3f) <<< 8 ||| b1) * 60
    ∧ getCPMS_decodeCPS [b0, b1] = specCPSdecode b0 b1
    ∧ getCPMS_decodeCPS [0xFF, 0xFF] = 982980
    ∧ getCPMS_decodeCPS [0x80, 0x1C] = 1680 := by
  refine ⟨rfl, ?_, by decide, by decide⟩
  show ((b0 &&& 0x3f) <<< 8 ||| b1) * 60 = ((b0 % 64) * 256 + b1) * 60
  have h1 : b0 &&& 63 = b0 % 64 := by
    have := Nat.and_pow_two_sub_one_eq_mod b0 6
    norm_num at this
    exact this
  have h2 : (b0 % 64) * 256 ||| b1 = (b0 % 64) * 256 + b1 := by
    have h3 := Nat.mul_add_lt_is_or (show b1 < 2 ^ 8 by omega) (b0 % 64)
    calc (b0 % 64) * 256 ||| b1 = 2 ^ 8 * (b0 % 64) ||| b1 := by ring_nf
      _ = 2 ^ 8 * (b0 % 64) + b1 := h3.symm
      _ = (b0 % 64) * 256 + b1 := by ring
  rw [show (0x3f : Nat) = 63 from rfl, h1, Nat.shiftLeft_eq]
  norm_num
  rw [h2]

/-- Witness for C4 at the reply `[0xFF, 0xFF]`. -/
theorem getCPMS_cps_decode_masks_witness :
    getCPMS_decodeCPS [255, 255] = ((255 &&& 0x3f) <<< 8 ||| 255) * 60
    ∧ getCPMS_decodeCPS [255, 255] = specCPSdecode 255 255
    ∧ getCPMS_decodeCPS [0xFF, 0xFF] = 982980
    ∧ getCPMS_decodeCPS [0x80, 0x1C] = 1680 :=
  getCPMS_cps_decode_masks 255 255 (by decide)

/-! ### Claim C5: configuration write -/

lemma eq_take_of_eq_append (l A B : List Nat) (h : l = A ++ B) :
    A = l.take A.length := by
  subst h
  rw [List.take_left]

lemma remove_trailing_eq_take (l : List Nat) (v : Nat) :
    ∃ k, remove_trailing l v = l.take k :=
  ⟨(remove_trailing l v).length,
    eq_take_of_eq_append l _ ((l.reverse.takeWhile (fun c => c == v)).reverse)
      (by
        conv_lhs => rw [← l.reverse_reverse,
          ← List.takeWhile_append_dropWhile (fun c => c == v) l.reverse,
          List.reverse_append]
        rfl)⟩

lemma getElem?_of_take_getElem? (l : List Nat) (k i d : Nat)
    (h : (l.take k)[i]? = some d) : l[i]? = some d := by
  have hi : i < k := by
    obtain ⟨hlt, _⟩ := List.getElem?_eq_some_iff.mp h
    have := l.length_take k
    omega
  rwa [List.getElem?_take_of_lt hi] at h

/-- Claim C5: the configuration write sends back exactly the original block
with only the byte at the given address replaced by the new value and
trailing 0xFF sentinel bytes trimmed from the tail: every `(offset, byte)`
pair sent at an offset other than the changed address carries the original
byte of the original block at that offset (and a pair at the changed address carries the
new value), and the write sequence is followed by the reload/update
command (and preceded by the erase command). -/
theorem writeConfigData_single_byte_update (cfg : List Nat)
    (cfgaddress : Nat) (value : Nat) (i d : Nat)
    (hlen : cfg.length = 256) (haddr : cfgaddress < 256) :
    (Frame.wcfg i d ∈ writeConfigData cfg cfgaddress value →
      d = if i = cfgaddress then value else cfg.getD i 0)
    ∧ (writeConfigData cfg cfgaddress value).getLast? = some Frame.cfgupdate
    ∧ (writeConfigData cfg cfgaddress value).head? = some Frame.ecfg := by
  refine ⟨?_, ?_, ?_⟩
  · intro hmem
    unfold writeConfigData at hmem
    rw [List.mem_append, List.mem_append] at hmem
    rcases hmem with (h1 | h2) | h3
    · exact absurd (List.mem_singleton.mp h1) (fun hc => Frame.noConfusion hc)
    · obtain ⟨p, hp, hpe⟩ := List.mem_map.mp h2
      rw [Frame.wcfg.injEq] at hpe
      obtain ⟨hp1, hp2⟩ := hpe
      have hpid : p = (i, d) := by
        obtain ⟨pa, pb⟩ := p
        simp only [] at hp1 hp2
        rw [hp1, hp2]
      rw [hpid] at hp
      have hget := List.mk_mem_enum_iff_getElem?.mp hp
      obtain ⟨k, hk⟩ := remove_trailing_eq_take (cfg.set cfgaddress value) 255
      rw [hk] at hget
      have hset := getElem?_of_take_getElem? _ k i d hget
      by_cases hi : i = cfgaddress
      · subst hi
        rw [List.getElem?_set_self (by omega)] at hset
        rw [Option.some.injEq] at hset
        rw [if_pos rfl, hset]
      · rw [List.getElem?_set_ne (fun hc => hi hc.symm)] at hset
        rw [if_neg hi, List.getD_eq_getElem?_getD, hset]
        rfl
    · exact absurd (List.mem_singleton.mp h3) (fun hc => Frame.noConfusion hc)
  · unfold writeConfigData
    rw [List.getLast?_concat]
  · unfold writeConfigData
    rfl

set_option maxRecDepth 20000 in
/-- Witness for C5: in a 256-byte block of zeros, changing address 3 to
value 7 sends the original byte 0 at offset 2 and ends with the
reload/update frame. -/
theorem writeConfigData_single_byte_update_witness :
    ((0 : Nat) =
      if (2 : Nat) = 3 then (7 : Nat) else (List.replicate 256 0).getD 2 0)
    ∧ (writeConfigData (List.replicate 256 0) 3 7).getLast?
        = some Frame.cfgupdate := by
  have h := writeConfigData_single_byte_update (List.replicate 256 0) 3 7 2 0
    (by simp) (by omega)
  exact ⟨h.1 (by decide), h.2.1⟩

/-! ### Claim C6: SPIR frame encoding -/

/-- Claim C6: the memory-read (SPIR) frame contains a 3-byte big-endian
address followed by a 2-byte big-endian length field whose value is the
requested length reduced by one — except when the per-device-model index
selects the legacy variant (`devicesIndex = 3`, "GMC-300 v3.20"), in which
case the raw requested length is encoded; the quirk is decided by the
device-model index consulted at encode time. -/
theorem getSPIR_frame_encoding (devicesIndex address datalength : Nat)
    (ha : address < 2 ^ 24) (hd1 : 1 ≤ datalength)
    (hd2 : datalength < 2 ^ 16) :
    ∃ a2 a1 a0 l1 l0 : Nat,
      getSPIR_frame devicesIndex address datalength
        = [60, 83, 80, 73, 82, a2, a1, a0, l1, l0, 62, 62]
      ∧ a2 * 65536 + a1 * 256 + a0 = address
      ∧ l1 * 256 + l0
          = (if devicesIndex = 3 then datalength else datalength - 1)
      ∧ a2 < 256 ∧ a1 < 256 ∧ a0 < 256 ∧ l1 < 256 ∧ l0 < 256 := by
  by_cases h : devicesIndex = 3
  · refine ⟨address / 65536 % 256, address / 256 % 256, address % 256,
      datalength / 256 % 256, datalength % 256,
      ?_, by omega, ?_, by omega, by omega, by omega, by omega, by omega⟩
    · unfold getSPIR_frame pack32be pack16be
      rw [if_pos h]
      norm_num
    · rw [if_pos h]
      omega
  · refine ⟨address / 65536 % 256, address / 256 % 256, address % 256,
      (datalength - 1) / 256 % 256, (datalength - 1) % 256,
      ?_, by omega, ?_, by omega, by omega, by omega, by omega, by omega⟩
    · unfold getSPIR_frame pack32be pack16be
      rw [if_neg h]
      norm_num
    · rw [if_neg h]
      omega

/-! ### Claim C7: calibration extraction -/

/-- Claim C7: calibration extraction reads, at the three fixed offset pairs
(CPM at offsets 8-9, 14-15 and 20-21; dose rate at offsets 10-13, 16-19
and 22-25), a big-endian uint16 CPM value and a 4-byte IEEE-754 float
dose-rate value whose byte order is big-endian exactly when the device
model index is 2 (the GMC-500 profile) and little-endian for all other
models, via the single per-model `fString` switch. -/
theorem ftextCalibration_offsets_endianness (devicesIndex : Nat)
    (cfg : List Nat) :
    (calEndianFString devicesIndex = .big ↔ devicesIndex = 2)
    ∧ (calEndianFString devicesIndex = .little ↔ devicesIndex ≠ 2)
    ∧ cal_CPM cfg =
        [cfg.getD 8 0 * 256 + cfg.getD 9 0,
         cfg.getD 14 0 * 256 + cfg.getD 15 0,
         cfg.getD 20 0 * 256 + cfg.getD 21 0]
    ∧ (devicesIndex = 2 →
        cal_uSv devicesIndex cfg =
          [float32valBE
            [cfg.getD 10 0, cfg.getD 11 0, cfg.getD 12 0, cfg.getD 13 0],
           float32valBE
            [cfg.getD 16 0, cfg.getD 17 0, cfg.getD 18 0, cfg.getD 19 0],
           float32valBE
            [cfg.getD 22 0, cfg.getD 23 0, cfg.getD 24 0, cfg.getD 25 0]])
    ∧ (devicesIndex ≠ 2 →
        cal_uSv devicesIndex cfg =
          [float32valBE
            [cfg.getD 13 0, cfg.getD 12 0, cfg.getD 11 0, cfg.getD 10 0],
           float32valBE
            [cfg.getD 19 0, cfg.getD 18 0, cfg.getD 17 0, cfg.getD 16 0],
           float32valBE
            [cfg.getD 25 0, cfg.getD 24 0, cfg.getD 23 0, cfg.getD 22 0]]) := by
  refine ⟨?_, ?_, rfl, ?_, ?_⟩
  · by_cases h : devicesIndex = 2 <;> simp [calEndianFString, h]
  · by_cases h : devicesIndex = 2 <;> simp [calEndianFString, h]
  · intro h
    simp [cal_uSv, calEndianFString, h, structUnpackF]
  · intro h
    simp [cal_uSv, calEndianFString, h, structUnpackF]

/-- Witness for C7: the per-model float byte order at device indices 2 and
0 on the configuration block `0, 1, ..., 255`. -/
theorem ftextCalibration_offsets_endianness_witness :
    cal_uSv 2 (List.range 256) =
      [float32valBE
        [(List.range 256).getD 10 0, (List.range 256).getD 11 0,
         (List.range 256).getD 12 0, (List.range 256).getD 13 0],
       float32valBE
        [(List.range 256).getD 16 0, (List.range 256).getD 17 0,
         (List.range 256).getD 18 0, (List.range 256).getD 19 0],
       float32valBE
        [(List.range 256).getD 22 0, (List.range 256).getD 23 0,
         (List.range 256).getD 24 0, (List.range 256).getD 25 0]]
    ∧ cal_uSv 0 (List.range 256) =
      [float32valBE
        [(List.range 256).getD 13 0, (List.range 256).getD 12 0,
         (List.range 256).getD 11 0, (List.range 256).getD 10 0],
       float32valBE
        [(List.range 256).getD 19 0, (List.range 256).getD 18 0,
         (List.range 256).getD 17 0, (List.range 256).getD 16 0],
       float32valBE
        [(List.range 256).getD 25 0, (List.range 256).getD 24 0,
         (List.range 256).getD 23 0, (List.range 256).getD 22 0]] :=
  ⟨(ftextCalibration_offsets_endianness 2 (List.range 256)).2.2.2.1 rfl,
   (ftextCalibration_offsets_endianness 0 (List.range 256)).2.2.2.2
     (by omega)⟩

/-! ### Claim C8: date-time decode -/

set_option maxRecDepth 20000 in
/-- Claim C8: a 7-byte date-time reply with a valid calendar combination
decodes to the timestamp with year `YY + 2000` — in particular
`[17, 12, 31, 14, 3, 19, 0]` decodes to 2017-12-31 14:03:19 — and a reply
with an invalid combination (for example month byte 13) yields the
flagged sentinel `"2099-09-09 09:09:09"` with error code -1 and an error
message, never an uncontrolled exception (the decode is total). -/
theorem getDATETIME_decode_spec (recv : List Nat) :
    getDATETIME_decode [17, 12, 31, 14, 3, 19, 0]
      = .timestamp 2017 12 31 14 3 19
    ∧ (validDateTime (recv.getD 0 0 + 2000) (recv.getD 1 0) (recv.getD 2 0)
        (recv.getD 3 0) (recv.getD 4 0) (recv.getD 5 0) = true →
       getDATETIME_decode recv
         = .timestamp (recv.getD 0 0 + 2000) (recv.getD 1 0) (recv.getD 2 0)
             (recv.getD 3 0) (recv.getD 4 0) (recv.getD 5 0))
    ∧ (recv.getD 1 0 = 13 →
       getDATETIME_decode recv
         = .failure "2099-09-09 09:09:09" (-1)
             "ERROR getting Date & Time from device") := by
  refine ⟨by decide, ?_, ?_⟩
  · intro h
    unfold getDATETIME_decode
    rw [if_pos h]
  · intro h
    have hv : validDateTime (recv.getD 0 0 + 2000) (recv.getD 1 0)
        (recv.getD 2 0) (recv.getD 3 0) (recv.getD 4 0) (recv.getD 5 0)
        = false := by
      unfold validDateTime
      rw [h]
      simp
    unfold getDATETIME_decode
    rw [hv]
    simp

/-- Witness for C8: the valid reply `[17, 12, 31, 14, 3, 19, 0]` and the
month-13 reply `[17, 13, 31, 0, 0, 0, 0]`. -/
theorem getDATETIME_decode_spec_witness :
    getDATETIME_decode [17, 12, 31, 14, 3, 19, 0]
      = .timestamp 2017 12 31 14 3 19
    ∧ getDATETIME_decode [17, 13, 31, 0, 0, 0, 0]
      = .failure "2099-09-09 09:09:09" (-1)
          "ERROR getting Date & Time from device" :=
  ⟨((getDATETIME_decode_spec [17, 12, 31, 14, 3, 19, 0]).2.1 (by decide)),
   ((getDATETIME_decode_spec [17, 13, 31, 0, 0, 0, 0]).2.2 rfl)⟩

/-! ### Claim C9: save-data mode lookup -/

/-- Claim C9 counterexample: at save-data-type byte 4 — one past the table,
admitted by the off-by-one `<=` guard — the function does not return the
"Unknown SaveDataType: 4" label the claim requires: the out-of-range
access raises `IndexError`, and the blanket `except` reports
"Error in getSaveDataType, undefined type: 4" instead. -/
theorem getSaveDataType_offbyone_counterexample :
    getSaveDataType ((List.replicate 256 0).set 32 4)
      = (4, "Error in getSaveDataType, undefined type: 4")
    ∧ (getSaveDataType ((List.replicate 256 0).set 32 4)).2
        ≠ "Unknown SaveDataType: 4" := by
  constructor
  · rfl
  · decide

/-- Claim C9 (amended): the save-data-mode query maps byte values 0..3
through the four-entry table (off / per-second / per-minute / per-hour);
byte value 4, admitted by the off-by-one `<=` guard, hits an internal
`IndexError` that the `except` handler reports as an
"Error in getSaveDataType, undefined type" message naming the value;
byte values 5 and above get the "Unknown SaveDataType" label naming the
value; no out-of-range value ever returns a table entry, and none raises
an uncontrolled exception. -/
theorem getSaveDataType_spec (cfg : List Nat) :
    (cfg.getD 32 0 < 4 →
      getSaveDataType cfg
        = (cfg.getD 32 0, savedatatypes.getD (cfg.getD 32 0) ""))
    ∧ (cfg.getD 32 0 = 4 →
      getSaveDataType cfg
        = (4, "Error in getSaveDataType, undefined type: 4"))
    ∧ (4 < cfg.getD 32 0 →
      getSaveDataType cfg
        = (cfg.getD 32 0,
           "Unknown SaveDataType: " ++ toString (cfg.getD 32 0))) := by
  unfold getSaveDataType
  generalize cfg.getD 32 0 = s
  refine ⟨?_, ?_, ?_⟩
  · intro h
    interval_cases s <;> rfl
  · intro h
    subst h
    rfl
  · intro h
    unfold getSaveDataType_fromByte
    rw [if_neg (by simp [savedatatypes]; omega)]

/-- Witness for C9 (amended): byte value 2 maps to the per-minute entry,
byte value 4 to the error label, byte value 7 to the Unknown label. -/
theorem getSaveDataType_spec_witness :
    getSaveDataType (List.replicate 256 2) = (2, "CPM every minute")
    ∧ getSaveDataType ((List.replicate 256 0).set 32 4)
        = (4, "Error in getSaveDataType, undefined type: 4")
    ∧ getSaveDataType ((List.replicate 256 0).set 32 7)
        = (7, "Unknown SaveDataType: 7") :=
  ⟨(getSaveDataType_spec (List.replicate 256 2)).1 (by decide),
   (getSaveDataType_spec ((List.replicate 256 0).set 32 4)).2.1 (by decide),
   (getSaveDataType_spec ((List.replicate 256 0).set 32 7)).2.2 (by decide)⟩

/-- Witness for C6: the frame for device index 0, address 0x123456 and
length 4096. -/
theorem getSPIR_frame_encoding_witness :
    ∃ a2 a1 a0 l1 l0 : Nat,
      getSPIR_frame 0 1193046 4096
        = [60, 83, 80, 73, 82, a2, a1, a0, l1, l0, 62, 62]
      ∧ a2 * 65536 + a1 * 256 + a0 = 1193046
      ∧ l1 * 256 + l0 = (if (0 : Nat) = 3 then 4096 else 4096 - 1)
      ∧ a2 < 256 ∧ a1 < 256 ∧ a0 < 256 ∧ l1 < 256 ∧ l0 < 256 :=
  getSPIR_frame_encoding 0 1193046 4096 (by norm_num) (by norm_num)
    (by norm_num)

end GeigerLog
